import Mathlib

/-!
Shallow embedding of the home-assistant-bms-tools-integration repository:
the coordinator snapshot data model, the sensor entity projections
(sensor.py), the toggle write/settle protocol (switch.py), the poll cycle
(custom_components/bmstools/init.py) and the serial-number provisioning
step (custom_components/bmstools/config_flow.py), with theorems settling
the specification claims.
-/

/-- A value stored in a coordinator snapshot mapping: the device client
returns Python dicts whose values are integers (register readings in
milli-units or counts) or booleans (FET-enable and balancing flags). -/
inductive JValue where
  | int (n : ℤ)
  | bool (b : Bool)
deriving DecidableEq

/-- A snapshot mapping is a Python dict keyed by strings; modelled as an
association list, first match wins (Python dict keys are unique). -/
abbrev KVMap := List (String × JValue)

/-- Dictionary lookup, d[k]: some value when the key is present, none for
the KeyError path. -/
def lookupKey (m : KVMap) (k : String) : Option JValue :=
  (m.find? (fun p => p.1 == k)).map (fun p => p.2)

/-- Lookup expecting an integer register value. -/
def getInt (m : KVMap) (k : String) : Option ℤ :=
  match lookupKey m k with
  | some (JValue.int n) => some n
  | _ => none

/-- Lookup expecting a boolean flag value. -/
def getBool (m : KVMap) (k : String) : Option Bool :=
  match lookupKey m k with
  | some (JValue.bool b) => some b
  | _ => none

/-- The coordinator snapshot: the dict returned by sync_update_data with
the two keys basic_info and cell_info (const.py
COORDINATOR_DATA_BASIC_INFO / COORDINATOR_DATA_CELL_INFO). -/
structure Snapshot where
  basic_info : KVMap
  cell_info : KVMap
deriving DecidableEq

/-- Key constants from sensor.py (JBDBasicInfoSensor). -/
def BATTERY_VOLTAGE : String := "pack_mv"

/-- Key constant for the pack current register (JBDBasicInfoSensor). -/
def BATTERY_CURRENT : String := "pack_ma"

/-- Key constant for the charge-FET-enabled flag (JBDBasicInfoSensor). -/
def CHARGING_ENABLED : String := "chg_fet_en"

/-- Key constant for the discharge-FET-enabled flag (JBDBasicInfoSensor). -/
def DISCHARGING_ENABLED : String := "dsg_fet_en"

/-- Round a rational to the nearest integer, ties to even: the semantics
of Python round() (the snapshot values are exact decimals, so the rational
model matches the float behaviour on the values that occur here). -/
def roundHalfToEven (q : ℚ) : ℤ :=
  if q - ⌊q⌋ < 1/2 then ⌊q⌋
  else if 1/2 < q - ⌊q⌋ then ⌊q⌋ + 1
  else if ⌊q⌋ % 2 = 0 then ⌊q⌋ else ⌊q⌋ + 1

/-- Python round(q, ndigits): round at ndigits decimal places. -/
def pyRound (q : ℚ) (ndigits : ℕ) : ℚ :=
  (roundHalfToEven (q * 10 ^ ndigits) : ℚ) / 10 ^ ndigits

/-- JBDBasicInfoSensor.native_value: look the descriptor key up in the
basic_info mapping of the current snapshot and return it raw when the
divisor is 1, else divided by the divisor and rounded to 2 decimals. -/
def basicInfoNativeValue (s : Snapshot) (key : String) (divisor : ℤ) : Option ℚ :=
  (getInt s.basic_info key).map (fun v =>
    if divisor = 1 then (v : ℚ) else pyRound ((v : ℚ) / (divisor : ℚ)) 2)

/-- JBDCellVoltageSensor.native_value: look the descriptor key up in the
cell_info mapping, divide by 1000 and round to 3 decimals. -/
def cellVoltageNativeValue (s : Snapshot) (key : String) : Option ℚ :=
  (getInt s.cell_info key).map (fun mv => pyRound ((mv : ℚ) / 1000) 3)

/-- JBDCalculatedPowerSensor.native_value:
(pack_mv / 1000) * (pack_ma / 1000). -/
def powerNativeValue (s : Snapshot) : Option ℚ := do
  let mv ← getInt s.basic_info BATTERY_VOLTAGE
  let ma ← getInt s.basic_info BATTERY_CURRENT
  pure (((mv : ℚ) / 1000) * ((ma : ℚ) / 1000))

/-- JBDCalculatedDischargePowerSensor.native_value: -power when power is
negative, else 0. -/
def dischargePowerNativeValue (s : Snapshot) : Option ℚ := do
  let mv ← getInt s.basic_info BATTERY_VOLTAGE
  let ma ← getInt s.basic_info BATTERY_CURRENT
  let p := ((mv : ℚ) / 1000) * ((ma : ℚ) / 1000)
  pure (if p < 0 then -p else 0)

/-- JBDCalculatedChargePowerSensor.native_value: power when power is
positive, else 0. -/
def chargePowerNativeValue (s : Snapshot) : Option ℚ := do
  let mv ← getInt s.basic_info BATTERY_VOLTAGE
  let ma ← getInt s.basic_info BATTERY_CURRENT
  let p := ((mv : ℚ) / 1000) * ((ma : ℚ) / 1000)
  pure (if 0 < p then p else 0)

/-- The pair of flag values carried by a single combined
client.chgDsgEnable(charge, discharge) write. -/
structure ChgDsgWrite where
  charge : Bool
  discharge : Bool
deriving DecidableEq

/-- The observable outcome of one toggle operation (switch.py
async_turn_on / async_turn_off): the single combined write sent to the
client, the number of settle-loop body iterations executed, and whether a
coordinator refresh was requested afterwards. -/
structure ToggleResult where
  write : ChgDsgWrite
  settleIterations : ℕ
  refreshRequested : Bool
deriving DecidableEq

/-- The settle loop from switch.py, literally
"attempts = 5; while client.readBasicInfo()[flag] differs from desired
and attempts > 0: attempts -= 1". The k-th call of readBasicInfo is
modelled by the stream value reads k (the flag extracted from the k-th
read, none for a raised KeyError propagating out of the loop). Returns
the number of body iterations executed. Note the guard evaluates the read
first (the Python conjunction short-circuits left to right), so even the final,
terminating guard performs one read. -/
def settleLoopIters (reads : ℕ → Option Bool) (desired : Bool) : ℕ → ℕ → Option ℕ
  | k, 0 => do
      let _ ← reads k
      pure 0
  | k, a + 1 => do
      let v ← reads k
      if v = desired then pure 0
      else (fun i => i + 1) <$> settleLoopIters reads desired (k + 1) a

/-- JBDChargeToggle.async_turn_on: read the last known discharge flag
from the coordinator snapshot, send the combined write (True, discharge),
run the settle loop on the charge flag with desired True, then request a
coordinator refresh. The reads stream gives the successive
client.readBasicInfo() results used by the settle loop. -/
def chargeTurnOn (coordBasic : KVMap) (reads : ℕ → KVMap) : Option ToggleResult := do
  let discharge_enabled ← getBool coordBasic DISCHARGING_ENABLED
  let iters ← settleLoopIters (fun k => getBool (reads k) CHARGING_ENABLED) true 0 5
  pure ⟨⟨true, discharge_enabled⟩, iters, true⟩

/-- JBDChargeToggle.async_turn_off: combined write (False, discharge),
settle loop on the charge flag with desired False. -/
def chargeTurnOff (coordBasic : KVMap) (reads : ℕ → KVMap) : Option ToggleResult := do
  let discharge_enabled ← getBool coordBasic DISCHARGING_ENABLED
  let iters ← settleLoopIters (fun k => getBool (reads k) CHARGING_ENABLED) false 0 5
  pure ⟨⟨false, discharge_enabled⟩, iters, true⟩

/-- JBDDischargeToggle.async_turn_on: combined write (charge, True),
settle loop on the discharge flag with desired True. -/
def dischargeTurnOn (coordBasic : KVMap) (reads : ℕ → KVMap) : Option ToggleResult := do
  let charge_enabled ← getBool coordBasic CHARGING_ENABLED
  let iters ← settleLoopIters (fun k => getBool (reads k) DISCHARGING_ENABLED) true 0 5
  pure ⟨⟨charge_enabled, true⟩, iters, true⟩

/-- JBDDischargeToggle.async_turn_off: combined write (charge, False),
settle loop on the discharge flag with desired False. -/
def dischargeTurnOff (coordBasic : KVMap) (reads : ℕ → KVMap) : Option ToggleResult := do
  let charge_enabled ← getBool coordBasic CHARGING_ENABLED
  let iters ← settleLoopIters (fun k => getBool (reads k) DISCHARGING_ENABLED) false 0 5
  pure ⟨⟨charge_enabled, false⟩, iters, true⟩

/-- One poll cycle's device behaviour: whether client.open(),
client.readBasicInfo() and client.readCellInfo() succeed (with the
mappings they return) or raise the communication error BMSError
(modelled as Except.error ()). -/
structure BmsDevice where
  openR : Except Unit Unit
  basic : Except Unit KVMap
  cell : Except Unit KVMap

/-- Events on the serial link observable during one poll cycle. -/
inductive LinkEv where
  | opened
  | readBasic
  | readCell
  | closed
deriving DecidableEq

/-- sync_update_data from custom_components/bmstools/init.py:
try: open; basic_info = readBasicInfo(); cell_info = readCellInfo()
finally: close. Returns the snapshot dict with exactly the keys
basic_info and cell_info, or propagates the BMSError; the event trace
records the link operations performed, the finally block appending the
close on every path. -/
def sync_update_data (dev : BmsDevice) : Except Unit Snapshot × List LinkEv :=
  match dev.openR with
  | Except.error e => (Except.error e, [LinkEv.opened, LinkEv.closed])
  | Except.ok _ =>
    match dev.basic with
    | Except.error e => (Except.error e, [LinkEv.opened, LinkEv.readBasic, LinkEv.closed])
    | Except.ok b =>
      match dev.cell with
      | Except.error e =>
          (Except.error e, [LinkEv.opened, LinkEv.readBasic, LinkEv.readCell, LinkEv.closed])
      | Except.ok c =>
          (Except.ok ⟨b, c⟩, [LinkEv.opened, LinkEv.readBasic, LinkEv.readCell, LinkEv.closed])

/-- async_update_data from custom_components/bmstools/init.py: run
sync_update_data and turn a raised BMSError into the recoverable
UpdateFailed condition with message "BMS communication error". -/
def async_update_data (dev : BmsDevice) : Except String Snapshot :=
  match (sync_update_data dev).1 with
  | Except.ok s => Except.ok s
  | Except.error _ => Except.error "BMS communication error"

/-- Modelled from the spec: the host DataUpdateCoordinator collaborator
(external to this repository) publishes the snapshot returned by the
update method, and on a raised UpdateFailed surfaces a failed-refresh
condition to subscribers while retaining the previously published
snapshot as current. Returns (current snapshot after the cycle,
whether the cycle succeeded). -/
def coordinatorRefresh (prev : Option Snapshot) (dev : BmsDevice) :
    Option Snapshot × Bool :=
  match async_update_data dev with
  | Except.ok s => (some s, true)
  | Except.error _ => (prev, false)

/-- The result of a provisioning-flow step (the host data-entry-flow
collaborator): re-show a form with error codes, abort with a reason, or
create the configuration entry carrying the resolved serial number. -/
inductive FlowResult where
  | showForm (step : String) (errors : List (String × String))
  | abort (reason : String)
  | createEntry (serial : ℕ)
deriving DecidableEq

/-- get_next_available_serial_number from config_flow.py: collect the
serial numbers of all existing configured entries, then scan
range(1, 65536) and return the first integer not taken; None when all
65535 are taken. -/
def get_next_available_serial_number (taken : List ℕ) : Option ℕ :=
  (List.range' 1 65535).find? (fun s => !(taken.contains s))

/-- write_serial_number from config_flow.py: write the assigned serial
number to the device EEPROM inside try/except BMSError, the handler only
logging. Returns Except.ok always (the exception never escapes); the
payload records what the device EEPROM now holds (none when the write
raised). -/
def write_serial_number (deviceWriteOk : Bool) (n : ℕ) : Except Unit (Option ℕ) :=
  if deviceWriteOk then Except.ok (some n) else Except.ok none

/-- The observable outcome of async_step_serial_number: the flow result
returned to the host, the serial number held in init_info afterwards, and
the serial number persisted to the device EEPROM (none when no write
happened or the write raised). -/
structure SerialStepOutcome where
  result : FlowResult
  finalSerial : ℕ
  eepromSerial : Option ℕ
deriving DecidableEq

/-- The tail of async_step_serial_number (config_flow.py), reached after
the user-input block: if init_info serial_number is 0, show the consent
form (with whatever errors accumulated); else abort when an existing
entry already uses the serial, else create the entry. -/
def serial_number_tail (initSerial : ℕ) (taken : List ℕ)
    (errors : List (String × String)) : FlowResult :=
  if initSerial = 0 then FlowResult.showForm "serial_number" errors
  else if taken.contains initSerial then FlowResult.abort "device_already_configured"
  else FlowResult.createEntry initSerial

/-- async_step_serial_number from config_flow.py. initSerial is
init_info[ATTR_SERIAL_NUMBER] on entry, taken the serial numbers of
existing configured entries, user_input none on first display and
some consent after the form was submitted. Faithful to the source,
including the branch where, with no serial number available,
self.async_abort(reason="serial_numbers_exhausted") is computed but its
result discarded (no return statement), so control falls through to the
tail. -/
def async_step_serial_number (initSerial : ℕ) (taken : List ℕ)
    (deviceWriteOk : Bool) (user_input : Option Bool) : SerialStepOutcome :=
  match user_input with
  | none => ⟨serial_number_tail initSerial taken [], initSerial, none⟩
  | some consent =>
    if consent then
      match get_next_available_serial_number taken with
      | some n =>
        let written := match write_serial_number deviceWriteOk n with
          | Except.ok r => r
          | Except.error _ => none
        ⟨serial_number_tail n taken [], n, written⟩
      | none => ⟨serial_number_tail initSerial taken [], initSerial, none⟩
    else
      ⟨serial_number_tail initSerial taken [("base", "must_give_consent")],
        initSerial, none⟩

/-- The snapshot of the end-to-end scenario of claim C1:
basic_info with pack_mv 25000 and pack_ma -2000. -/
def snapScenario : Snapshot :=
  ⟨[("pack_mv", JValue.int 25000), ("pack_ma", JValue.int (-2000))], []⟩

/-- Helper: the three derived power projections expressed through max,
for any snapshot whose basic_info holds pack_mv and pack_ma. -/
theorem power_projections_aux (b c : KVMap) (mv ma : ℤ)
    (h1 : getInt b BATTERY_VOLTAGE = some mv)
    (h2 : getInt b BATTERY_CURRENT = some ma) :
    powerNativeValue ⟨b, c⟩ = some (((mv : ℚ) / 1000) * ((ma : ℚ) / 1000)) ∧
    dischargePowerNativeValue ⟨b, c⟩ =
      some (max 0 (-(((mv : ℚ) / 1000) * ((ma : ℚ) / 1000)))) ∧
    chargePowerNativeValue ⟨b, c⟩ =
      some (max 0 (((mv : ℚ) / 1000) * ((ma : ℚ) / 1000))) := by
  set p : ℚ := ((mv : ℚ) / 1000) * ((ma : ℚ) / 1000) with hp
  refine ⟨?_, ?_, ?_⟩
  · simp [powerNativeValue, h1, h2, hp]
  · simp only [dischargePowerNativeValue, h1, h2, Option.bind_eq_bind,
      Option.some_bind, Option.some.injEq, ← hp]
    rcases lt_or_le p 0 with h | h
    · rw [if_pos h, max_eq_right (by linarith)]; rfl
    · rw [if_neg (not_lt.mpr h), max_eq_left (by linarith)]; rfl
  · simp only [chargePowerNativeValue, h1, h2, Option.bind_eq_bind,
      Option.some_bind, Option.some.injEq, ← hp]
    rcases lt_or_le 0 p with h | h
    · rw [if_pos h, max_eq_right (by linarith)]; rfl
    · rw [if_neg (not_lt.mpr h), max_eq_left h]; rfl

/-- C1: for every snapshot containing pack_mv and pack_ma, the power
projection equals (pack_mv/1000) * (pack_ma/1000), the discharge_power
projection equals max(0, -power) and the charge_power projection equals
max(0, power). -/
theorem power_projection_formulas (b c : KVMap) (mv ma : ℤ)
    (h1 : getInt b BATTERY_VOLTAGE = some mv)
    (h2 : getInt b BATTERY_CURRENT = some ma) :
    powerNativeValue ⟨b, c⟩ = some (((mv : ℚ) / 1000) * ((ma : ℚ) / 1000)) ∧
    dischargePowerNativeValue ⟨b, c⟩ =
      some (max 0 (-(((mv : ℚ) / 1000) * ((ma : ℚ) / 1000)))) ∧
    chargePowerNativeValue ⟨b, c⟩ =
      some (max 0 (((mv : ℚ) / 1000) * ((ma : ℚ) / 1000))) :=
  power_projections_aux b c mv ma h1 h2

/-- C1 witness: on the snapshot with pack_mv 25000 and pack_ma -2000 the
projections evaluate to power -50, discharge_power 50, charge_power 0. -/
theorem power_projection_formulas_scenario :
    powerNativeValue snapScenario = some (-50) ∧
    dischargePowerNativeValue snapScenario = some 50 ∧
    chargePowerNativeValue snapScenario = some 0 := by
  have h := power_projection_formulas
    [("pack_mv", JValue.int 25000), ("pack_ma", JValue.int (-2000))] []
    25000 (-2000)
    (by simp [getInt, lookupKey, BATTERY_VOLTAGE, List.find?])
    (by simp [getInt, lookupKey, BATTERY_CURRENT, List.find?])
  refine ⟨?_, ?_, ?_⟩
  · rw [show snapScenario =
      (⟨[("pack_mv", JValue.int 25000), ("pack_ma", JValue.int (-2000))], []⟩ : Snapshot)
      from rfl, h.1]
    norm_num
  · rw [show snapScenario =
      (⟨[("pack_mv", JValue.int 25000), ("pack_ma", JValue.int (-2000))], []⟩ : Snapshot)
      from rfl, h.2.1]
    norm_num [max_def]
  · rw [show snapScenario =
      (⟨[("pack_mv", JValue.int 25000), ("pack_ma", JValue.int (-2000))], []⟩ : Snapshot)
      from rfl, h.2.2]
    norm_num [max_def]

/-- C2 counterexample: at the snapshot with pack_mv 25000 and pack_ma 0
the power is 0 and both discharge_power and charge_power are 0, so it is
not the case that exactly one of them is non-zero. -/
theorem sign_partition_both_zero_cex :
    dischargePowerNativeValue ⟨[("pack_mv", JValue.int 25000), ("pack_ma", JValue.int 0)], []⟩
      = some 0 ∧
    chargePowerNativeValue ⟨[("pack_mv", JValue.int 25000), ("pack_ma", JValue.int 0)], []⟩
      = some 0 ∧
    ¬((dischargePowerNativeValue
          ⟨[("pack_mv", JValue.int 25000), ("pack_ma", JValue.int 0)], []⟩ ≠ some 0 ∧
        chargePowerNativeValue
          ⟨[("pack_mv", JValue.int 25000), ("pack_ma", JValue.int 0)], []⟩ = some 0) ∨
      (dischargePowerNativeValue
          ⟨[("pack_mv", JValue.int 25000), ("pack_ma", JValue.int 0)], []⟩ = some 0 ∧
        chargePowerNativeValue
          ⟨[("pack_mv", JValue.int 25000), ("pack_ma", JValue.int 0)], []⟩ ≠ some 0)) := by
  have hd : dischargePowerNativeValue
      ⟨[("pack_mv", JValue.int 25000), ("pack_ma", JValue.int 0)], []⟩ = some 0 := by
    simp [dischargePowerNativeValue, getInt, lookupKey, BATTERY_VOLTAGE, BATTERY_CURRENT,
      List.find?]
  have hc : chargePowerNativeValue
      ⟨[("pack_mv", JValue.int 25000), ("pack_ma", JValue.int 0)], []⟩ = some 0 := by
    simp [chargePowerNativeValue, getInt, lookupKey, BATTERY_VOLTAGE, BATTERY_CURRENT,
      List.find?]
  refine ⟨hd, hc, ?_⟩
  rintro (⟨h, _⟩ | ⟨_, h⟩)
  · exact h hd
  · exact h hc

/-- C2 amended: for every snapshot containing pack_mv and pack_ma, at
most one of discharge_power and charge_power is non-zero — their product
is 0 and charge_power - discharge_power equals power. -/
theorem sign_partition_relations (b c : KVMap) (mv ma : ℤ)
    (h1 : getInt b BATTERY_VOLTAGE = some mv)
    (h2 : getInt b BATTERY_CURRENT = some ma) :
    ∃ p d ch : ℚ,
      powerNativeValue ⟨b, c⟩ = some p ∧
      dischargePowerNativeValue ⟨b, c⟩ = some d ∧
      chargePowerNativeValue ⟨b, c⟩ = some ch ∧
      d * ch = 0 ∧ ch - d = p ∧ ¬(d ≠ 0 ∧ ch ≠ 0) := by
  have h := power_projections_aux b c mv ma h1 h2
  set p : ℚ := ((mv : ℚ) / 1000) * ((ma : ℚ) / 1000) with hp
  refine ⟨p, max 0 (-p), max 0 p, h.1, h.2.1, h.2.2, ?_, ?_, ?_⟩
  · rcases lt_trichotomy p 0 with hlt | heq | hgt
    · rw [max_eq_left (by linarith : p ≤ 0), mul_zero]
    · rw [heq]; norm_num
    · rw [max_eq_left (by linarith : -p ≤ 0), zero_mul]
  · rcases lt_trichotomy p 0 with hlt | heq | hgt
    · rw [max_eq_right (by linarith : (0:ℚ) ≤ -p), max_eq_left (by linarith : p ≤ 0)]; ring
    · rw [heq]; norm_num
    · rw [max_eq_left (by linarith : -p ≤ 0), max_eq_right (by linarith : (0:ℚ) ≤ p)]; ring
  · rintro ⟨hd, hc⟩
    rcases lt_trichotomy p 0 with hlt | heq | hgt
    · exact hc (max_eq_left (by linarith : p ≤ 0))
    · exact hd (by rw [heq]; norm_num)
    · exact hd (max_eq_left (by linarith : -p ≤ 0))

/-- C2 amended witness: at the scenario snapshot (pack_mv 25000, pack_ma
-2000) the relations hold with power -50, discharge_power 50,
charge_power 0. -/
theorem sign_partition_relations_scenario :
    ∃ p d ch : ℚ,
      powerNativeValue snapScenario = some p ∧
      dischargePowerNativeValue snapScenario = some d ∧
      chargePowerNativeValue snapScenario = some ch ∧
      d * ch = 0 ∧ ch - d = p ∧ ¬(d ≠ 0 ∧ ch ≠ 0) :=
  sign_partition_relations
    [("pack_mv", JValue.int 25000), ("pack_ma", JValue.int (-2000))] []
    25000 (-2000)
    (by simp [getInt, lookupKey, BATTERY_VOLTAGE, List.find?])
    (by simp [getInt, lookupKey, BATTERY_CURRENT, List.find?])

/-- C3 counterexample: the cell-voltage projection rounds to 3 decimal
places, not 2: on a cell_info snapshot with cell0_mv = 1234 it returns
1.234, which differs from 1234/1000 rounded to 2 decimals (1.23). -/
theorem cell_voltage_three_decimals_cex :
    cellVoltageNativeValue ⟨[], [("cell0_mv", JValue.int 1234)]⟩ "cell0_mv"
      = some (1234 / 1000) ∧
    cellVoltageNativeValue ⟨[], [("cell0_mv", JValue.int 1234)]⟩ "cell0_mv"
      ≠ some (pyRound ((1234 : ℚ) / 1000) 2) := by
  have hval : cellVoltageNativeValue ⟨[], [("cell0_mv", JValue.int 1234)]⟩ "cell0_mv"
      = some (1234 / 1000) := by
    simp [cellVoltageNativeValue, getInt, lookupKey, List.find?]
    norm_num [pyRound, roundHalfToEven]
  refine ⟨hval, ?_⟩
  rw [hval]
  have h2 : pyRound ((1234 : ℚ) / 1000) 2 = 123 / 100 := by
    norm_num [pyRound, roundHalfToEven]
  rw [h2]
  intro hcon
  rw [Option.some_inj] at hcon
  norm_num at hcon

/-- C3 amended: for every snapshot, a basic-info projection with key k
present and divisor d returns the raw value S[k] when d = 1 and
S[k]/d rounded to 2 decimal places otherwise, while a cell-voltage
projection with key k present returns S[k]/1000 rounded to 3 decimal
places — in both cases computed afresh from the looked-up raw value,
never a stale or default value. -/
theorem projection_from_raw_value (s : Snapshot) (key : String) (divisor : ℤ) :
    (∀ v : ℤ, getInt s.basic_info key = some v →
      basicInfoNativeValue s key divisor =
        some (if divisor = 1 then (v : ℚ) else pyRound ((v : ℚ) / (divisor : ℚ)) 2)) ∧
    (∀ mv : ℤ, getInt s.cell_info key = some mv →
      cellVoltageNativeValue s key = some (pyRound ((mv : ℚ) / 1000) 3)) := by
  constructor
  · intro v hv
    simp [basicInfoNativeValue, hv]
  · intro mv hmv
    simp [cellVoltageNativeValue, hmv]

/-- C3 amended witness: on a snapshot with pack_mv 25000 (divisor 1000)
the basic-info projection returns 25, and with cell0_mv 1234 the
cell-voltage projection returns 1.234. -/
theorem projection_from_raw_value_example :
    basicInfoNativeValue ⟨[("pack_mv", JValue.int 25000)], [("cell0_mv", JValue.int 1234)]⟩
      "pack_mv" 1000 = some 25 ∧
    cellVoltageNativeValue ⟨[("pack_mv", JValue.int 25000)], [("cell0_mv", JValue.int 1234)]⟩
      "cell0_mv" = some (1234 / 1000) := by
  have h := projection_from_raw_value
    ⟨[("pack_mv", JValue.int 25000)], [("cell0_mv", JValue.int 1234)]⟩ "pack_mv" 1000
  have hh := projection_from_raw_value
    ⟨[("pack_mv", JValue.int 25000)], [("cell0_mv", JValue.int 1234)]⟩ "cell0_mv" 1000
  constructor
  · rw [h.1 25000 (by simp [getInt, lookupKey, List.find?])]
    norm_num [pyRound, roundHalfToEven]
  · rw [hh.2 1234 (by simp [getInt, lookupKey, List.find?])]
    norm_num [pyRound, roundHalfToEven]

/-- Characterization of the settle loop from switch.py: when it returns
(no KeyError), it performed i body iterations with i at most the attempt
budget, every completed iteration saw a read whose flag differed from the
desired value, and if the loop stopped before exhausting the budget, the
read at the stopping guard matched the desired value. -/
theorem settleLoopIters_spec (reads : ℕ → Option Bool) (desired : Bool) :
    ∀ a k i, settleLoopIters reads desired k a = some i →
      i ≤ a ∧ (∀ j, j < i → reads (k + j) = some (!desired)) ∧
      (i < a → reads (k + i) = some desired) := by
  intro a
  induction a with
  | zero =>
    intro k i h
    simp only [settleLoopIters, Option.bind_eq_bind, Option.pure_def] at h
    rcases hr : reads k with _ | v
    · rw [hr] at h; simp at h
    · rw [hr] at h
      simp only [Option.some_bind, Option.some.injEq] at h
      subst h
      exact ⟨Nat.le_refl 0, fun j hj => absurd hj (Nat.not_lt_zero j),
        fun hlt => absurd hlt (Nat.lt_irrefl 0)⟩
  | succ a ih =>
    intro k i h
    simp only [settleLoopIters, Option.bind_eq_bind, Option.pure_def] at h
    rcases hr : reads k with _ | v
    · rw [hr] at h; simp at h
    · rw [hr] at h
      simp only [Option.some_bind] at h
      by_cases hv : v = desired
      · rw [if_pos hv] at h
        simp only [Option.some.injEq] at h
        subst h
        refine ⟨Nat.zero_le _, fun j hj => absurd hj (Nat.not_lt_zero j), fun _ => ?_⟩
        rw [Nat.add_zero, hr, hv]
      · rw [if_neg hv] at h
        rcases Option.map_eq_some'.mp h with ⟨i0, hs, hi⟩
        obtain ⟨hle, hbody, hstop⟩ := ih (k + 1) i0 hs
        subst hi
        refine ⟨Nat.succ_le_succ hle, ?_, ?_⟩
        · intro j hj
          cases j with
          | zero =>
            rw [Nat.add_zero, hr]
            cases v <;> cases desired <;> simp_all
          | succ j0 =>
            have hj0 : j0 < i0 := Nat.lt_of_succ_lt_succ hj
            have hk : k + (j0 + 1) = (k + 1) + j0 := by omega
            rw [hk]
            exact hbody j0 hj0
        · intro hlt
          have hk : k + (i0 + 1) = (k + 1) + i0 := by omega
          rw [hk]
          exact hstop (Nat.lt_of_succ_lt_succ hlt)

/-- Inversion for chargeTurnOn: a successful run determines the sibling
flag read, the settle iteration count, and the result fields. -/
theorem chargeTurnOn_eq_some (coord : KVMap) (reads : ℕ → KVMap) (r : ToggleResult) :
    chargeTurnOn coord reads = some r ↔
      ∃ b i, getBool coord DISCHARGING_ENABLED = some b ∧
        settleLoopIters (fun k => getBool (reads k) CHARGING_ENABLED) true 0 5 = some i ∧
        r = ⟨⟨true, b⟩, i, true⟩ := by
  simp only [chargeTurnOn, Option.bind_eq_bind, Option.pure_def, Option.bind_eq_some,
    Option.some.injEq]
  constructor
  · rintro ⟨b, hb, i, hi, hr⟩
    exact ⟨b, i, hb, hi, hr.symm⟩
  · rintro ⟨b, i, hb, hi, hr⟩
    exact ⟨b, hb, i, hi, hr.symm⟩

/-- Inversion for chargeTurnOff. -/
theorem chargeTurnOff_eq_some (coord : KVMap) (reads : ℕ → KVMap) (r : ToggleResult) :
    chargeTurnOff coord reads = some r ↔
      ∃ b i, getBool coord DISCHARGING_ENABLED = some b ∧
        settleLoopIters (fun k => getBool (reads k) CHARGING_ENABLED) false 0 5 = some i ∧
        r = ⟨⟨false, b⟩, i, true⟩ := by
  simp only [chargeTurnOff, Option.bind_eq_bind, Option.pure_def, Option.bind_eq_some,
    Option.some.injEq]
  constructor
  · rintro ⟨b, hb, i, hi, hr⟩
    exact ⟨b, i, hb, hi, hr.symm⟩
  · rintro ⟨b, i, hb, hi, hr⟩
    exact ⟨b, hb, i, hi, hr.symm⟩

/-- Inversion for dischargeTurnOn. -/
theorem dischargeTurnOn_eq_some (coord : KVMap) (reads : ℕ → KVMap) (r : ToggleResult) :
    dischargeTurnOn coord reads = some r ↔
      ∃ b i, getBool coord CHARGING_ENABLED = some b ∧
        settleLoopIters (fun k => getBool (reads k) DISCHARGING_ENABLED) true 0 5 = some i ∧
        r = ⟨⟨b, true⟩, i, true⟩ := by
  simp only [dischargeTurnOn, Option.bind_eq_bind, Option.pure_def, Option.bind_eq_some,
    Option.some.injEq]
  constructor
  · rintro ⟨b, hb, i, hi, hr⟩
    exact ⟨b, i, hb, hi, hr.symm⟩
  · rintro ⟨b, i, hb, hi, hr⟩
    exact ⟨b, hb, i, hi, hr.symm⟩

/-- Inversion for dischargeTurnOff. -/
theorem dischargeTurnOff_eq_some (coord : KVMap) (reads : ℕ → KVMap) (r : ToggleResult) :
    dischargeTurnOff coord reads = some r ↔
      ∃ b i, getBool coord CHARGING_ENABLED = some b ∧
        settleLoopIters (fun k => getBool (reads k) DISCHARGING_ENABLED) false 0 5 = some i ∧
        r = ⟨⟨b, false⟩, i, true⟩ := by
  simp only [dischargeTurnOff, Option.bind_eq_bind, Option.pure_def, Option.bind_eq_some,
    Option.some.injEq]
  constructor
  · rintro ⟨b, hb, i, hi, hr⟩
    exact ⟨b, i, hb, hi, hr.symm⟩
  · rintro ⟨b, i, hb, hi, hr⟩
    exact ⟨b, hb, i, hi, hr.symm⟩

/-- A concrete coordinator basic_info mapping for example runs: charging
disabled, discharging disabled. -/
def exCoord : KVMap :=
  [("chg_fet_en", JValue.bool false), ("dsg_fet_en", JValue.bool false)]

/-- A concrete stream of readBasicInfo results for example runs: every
read reports charging enabled and discharging disabled. -/
def exReads : ℕ → KVMap :=
  fun _ => [("chg_fet_en", JValue.bool true), ("dsg_fet_en", JValue.bool false)]

/-- C4: every toggle write carries, for the sibling flag, exactly the
value read from the current coordinator snapshot; the write is the same
for every device read stream, so the sibling value is never re-fetched
from the device, and a single-flag set never clobbers the sibling flag. -/
theorem toggle_write_preserves_sibling (coord : KVMap) (reads reads2 : ℕ → KVMap) :
    (∀ b : Bool, getBool coord DISCHARGING_ENABLED = some b →
      (∀ r, chargeTurnOn coord reads = some r → r.write = ⟨true, b⟩) ∧
      (∀ r, chargeTurnOff coord reads = some r → r.write = ⟨false, b⟩)) ∧
    (∀ b : Bool, getBool coord CHARGING_ENABLED = some b →
      (∀ r, dischargeTurnOn coord reads = some r → r.write = ⟨b, true⟩) ∧
      (∀ r, dischargeTurnOff coord reads = some r → r.write = ⟨b, false⟩)) ∧
    (∀ r r2, chargeTurnOn coord reads = some r → chargeTurnOn coord reads2 = some r2 →
      r.write = r2.write) := by
  refine ⟨?_, ?_, ?_⟩
  · intro b hb
    constructor
    · intro r hr
      obtain ⟨b2, i, hb2, _, hrw⟩ := (chargeTurnOn_eq_some coord reads r).mp hr
      rw [hb] at hb2
      cases hb2
      rw [hrw]
    · intro r hr
      obtain ⟨b2, i, hb2, _, hrw⟩ := (chargeTurnOff_eq_some coord reads r).mp hr
      rw [hb] at hb2
      cases hb2
      rw [hrw]
  · intro b hb
    constructor
    · intro r hr
      obtain ⟨b2, i, hb2, _, hrw⟩ := (dischargeTurnOn_eq_some coord reads r).mp hr
      rw [hb] at hb2
      cases hb2
      rw [hrw]
    · intro r hr
      obtain ⟨b2, i, hb2, _, hrw⟩ := (dischargeTurnOff_eq_some coord reads r).mp hr
      rw [hb] at hb2
      cases hb2
      rw [hrw]
  · intro r r2 hr hr2
    obtain ⟨b, i, hb, _, hrw⟩ := (chargeTurnOn_eq_some coord reads r).mp hr
    obtain ⟨b2, i2, hb2, _, hrw2⟩ := (chargeTurnOn_eq_some coord reads2 r2).mp hr2
    rw [hb] at hb2
    cases hb2
    rw [hrw, hrw2]

/-- C4 witness: concrete runs of all four toggle operations on exCoord
send the sibling flag value held by the coordinator snapshot. -/
theorem toggle_write_preserves_sibling_example :
    (chargeTurnOn exCoord exReads).map ToggleResult.write = some ⟨true, false⟩ ∧
    (chargeTurnOff exCoord exReads).map ToggleResult.write = some ⟨false, false⟩ ∧
    (dischargeTurnOn exCoord exReads).map ToggleResult.write = some ⟨false, true⟩ ∧
    (dischargeTurnOff exCoord exReads).map ToggleResult.write = some ⟨false, false⟩ := by
  have h := toggle_write_preserves_sibling exCoord exReads exReads
  have h1 := (h.1 false (by decide)).1 ⟨⟨true, false⟩, 0, true⟩ (by decide)
  have h2 := (h.1 false (by decide)).2 ⟨⟨false, false⟩, 5, true⟩ (by decide)
  have h3 := (h.2.1 false (by decide)).1 ⟨⟨false, true⟩, 5, true⟩ (by decide)
  have h4 := (h.2.1 false (by decide)).2 ⟨⟨false, false⟩, 0, true⟩ (by decide)
  refine ⟨?_, ?_, ?_, ?_⟩
  · rw [show chargeTurnOn exCoord exReads = some ⟨⟨true, false⟩, 0, true⟩ from by decide,
      Option.map_some', h1]
  · rw [show chargeTurnOff exCoord exReads = some ⟨⟨false, false⟩, 5, true⟩ from by decide,
      Option.map_some', h2]
  · rw [show dischargeTurnOn exCoord exReads = some ⟨⟨false, true⟩, 5, true⟩ from by decide,
      Option.map_some', h3]
  · rw [show dischargeTurnOff exCoord exReads = some ⟨⟨false, false⟩, 0, true⟩ from by decide,
      Option.map_some', h4]

/-- C5: after the combined write, every toggle operation runs a settle
loop of at most 5 iterations; each iteration j is driven by one direct
synchronous read of basic info (reads j) checked against the desired flag
value, every completed iteration saw a non-matching flag, and whenever
the loop stopped before the 5-iteration budget, the flag at the stopping
read matched the desired value — so it terminates as soon as the flag
matches or after 5 iterations, whichever comes first. -/
theorem toggle_settle_loop_bounded (coord : KVMap) (reads : ℕ → KVMap) :
    (∀ r, chargeTurnOn coord reads = some r →
      r.settleIterations ≤ 5 ∧
      (∀ j, j < r.settleIterations → getBool (reads j) CHARGING_ENABLED = some false) ∧
      (r.settleIterations < 5 →
        getBool (reads r.settleIterations) CHARGING_ENABLED = some true)) ∧
    (∀ r, chargeTurnOff coord reads = some r →
      r.settleIterations ≤ 5 ∧
      (∀ j, j < r.settleIterations → getBool (reads j) CHARGING_ENABLED = some true) ∧
      (r.settleIterations < 5 →
        getBool (reads r.settleIterations) CHARGING_ENABLED = some false)) ∧
    (∀ r, dischargeTurnOn coord reads = some r →
      r.settleIterations ≤ 5 ∧
      (∀ j, j < r.settleIterations → getBool (reads j) DISCHARGING_ENABLED = some false) ∧
      (r.settleIterations < 5 →
        getBool (reads r.settleIterations) DISCHARGING_ENABLED = some true)) ∧
    (∀ r, dischargeTurnOff coord reads = some r →
      r.settleIterations ≤ 5 ∧
      (∀ j, j < r.settleIterations → getBool (reads j) DISCHARGING_ENABLED = some true) ∧
      (r.settleIterations < 5 →
        getBool (reads r.settleIterations) DISCHARGING_ENABLED = some false)) := by
  refine ⟨?_, ?_, ?_, ?_⟩
  · intro r hr
    obtain ⟨b, i, _, hs, hrw⟩ := (chargeTurnOn_eq_some coord reads r).mp hr
    obtain ⟨hle, hbody, hstop⟩ :=
      settleLoopIters_spec (fun k => getBool (reads k) CHARGING_ENABLED) true 5 0 i hs
    subst hrw
    refine ⟨hle, ?_, ?_⟩
    · intro j hj
      have := hbody j hj
      rwa [Nat.zero_add] at this
    · intro hlt
      have := hstop hlt
      rwa [Nat.zero_add] at this
  · intro r hr
    obtain ⟨b, i, _, hs, hrw⟩ := (chargeTurnOff_eq_some coord reads r).mp hr
    obtain ⟨hle, hbody, hstop⟩ :=
      settleLoopIters_spec (fun k => getBool (reads k) CHARGING_ENABLED) false 5 0 i hs
    subst hrw
    refine ⟨hle, ?_, ?_⟩
    · intro j hj
      have := hbody j hj
      rwa [Nat.zero_add] at this
    · intro hlt
      have := hstop hlt
      rwa [Nat.zero_add] at this
  · intro r hr
    obtain ⟨b, i, _, hs, hrw⟩ := (dischargeTurnOn_eq_some coord reads r).mp hr
    obtain ⟨hle, hbody, hstop⟩ :=
      settleLoopIters_spec (fun k => getBool (reads k) DISCHARGING_ENABLED) true 5 0 i hs
    subst hrw
    refine ⟨hle, ?_, ?_⟩
    · intro j hj
      have := hbody j hj
      rwa [Nat.zero_add] at this
    · intro hlt
      have := hstop hlt
      rwa [Nat.zero_add] at this
  · intro r hr
    obtain ⟨b, i, _, hs, hrw⟩ := (dischargeTurnOff_eq_some coord reads r).mp hr
    obtain ⟨hle, hbody, hstop⟩ :=
      settleLoopIters_spec (fun k => getBool (reads k) DISCHARGING_ENABLED) false 5 0 i hs
    subst hrw
    refine ⟨hle, ?_, ?_⟩
    · intro j hj
      have := hbody j hj
      rwa [Nat.zero_add] at this
    · intro hlt
      have := hstop hlt
      rwa [Nat.zero_add] at this

/-- C5 witness: on the concrete runs over exCoord and exReads, the
charge turn-on loop stops at iteration 0 because the flag already
matches, and the discharge turn-on loop, which runs its full budget of 5
iterations, saw a non-matching flag at its third read. -/
theorem toggle_settle_loop_bounded_example :
    getBool (exReads 0) CHARGING_ENABLED = some true ∧
    getBool (exReads 2) DISCHARGING_ENABLED = some false := by
  have h := toggle_settle_loop_bounded exCoord exReads
  have hOn := h.1 ⟨⟨true, false⟩, 0, true⟩ (by decide)
  have hDn := h.2.2.1 ⟨⟨false, true⟩, 5, true⟩ (by decide)
  exact ⟨hOn.2.2 (by norm_num), hDn.2.1 2 (by norm_num)⟩

/-- C6: a poll cycle in which a register read raises the communication
error fails as a whole with the UpdateFailed condition and the previously
published snapshot remains current; a successful cycle publishes a
snapshot containing exactly the basic_info and cell_info mappings read in
that cycle. -/
theorem failed_cycle_keeps_snapshot (prev : Option Snapshot) (dev : BmsDevice) :
    (dev.openR = Except.ok () →
      dev.basic = Except.error () ∨ dev.cell = Except.error () →
      async_update_data dev = Except.error "BMS communication error" ∧
      (coordinatorRefresh prev dev).1 = prev ∧
      (coordinatorRefresh prev dev).2 = false) ∧
    (∀ b c : KVMap, dev.basic = Except.ok b → dev.cell = Except.ok c →
      dev.openR = Except.ok () →
      async_update_data dev = Except.ok ⟨b, c⟩ ∧
      (coordinatorRefresh prev dev).1 = some ⟨b, c⟩) := by
  obtain ⟨o, bs, cs⟩ := dev
  constructor
  · rintro ho hbc
    rcases o with e | u
    · simp at ho
    · rcases hbc with hb | hc
      · subst hb
        simp [coordinatorRefresh, async_update_data, sync_update_data]
      · subst hc
        rcases bs with e2 | bmap <;>
          simp [coordinatorRefresh, async_update_data, sync_update_data]
  · intro b c hb hc ho
    subst hb
    subst hc
    rcases o with e | u
    · simp at ho
    · simp [coordinatorRefresh, async_update_data, sync_update_data]

/-- A device behaviour whose basic-register read raises BMSError. -/
def devReadFails : BmsDevice := ⟨Except.ok (), Except.error (), Except.ok []⟩

/-- A device behaviour whose reads all succeed, returning the scenario
basic_info mapping and an empty cell_info mapping. -/
def devReadsOk : BmsDevice :=
  ⟨Except.ok (), Except.ok [("pack_mv", JValue.int 25000), ("pack_ma", JValue.int (-2000))],
    Except.ok []⟩

/-- C6 witness: with the scenario snapshot previously published, a cycle
whose basic read raises leaves it published and surfaces UpdateFailed,
while a successful cycle publishes exactly what was read. -/
theorem failed_cycle_keeps_snapshot_example :
    async_update_data devReadFails = Except.error "BMS communication error" ∧
    (coordinatorRefresh (some snapScenario) devReadFails).1 = some snapScenario ∧
    (coordinatorRefresh (some snapScenario) devReadsOk).1 =
      some ⟨[("pack_mv", JValue.int 25000), ("pack_ma", JValue.int (-2000))], []⟩ := by
  have h1 := (failed_cycle_keeps_snapshot (some snapScenario) devReadFails).1 rfl
    (Or.inl rfl)
  have h2 := (failed_cycle_keeps_snapshot (some snapScenario) devReadsOk).2
    [("pack_mv", JValue.int 25000), ("pack_ma", JValue.int (-2000))] [] rfl rfl rfl
  exact ⟨h1.1, h1.2.1, h2.2⟩

/-- C7: every poll cycle ends by closing the device link: on every
behaviour of the device client, including the paths where open or either
register read raises, the last link event of the cycle is the close
performed by the finally block. -/
theorem link_closed_on_every_path (dev : BmsDevice) :
    ((sync_update_data dev).2).getLast? = some LinkEv.closed := by
  obtain ⟨o, bs, cs⟩ := dev
  rcases o with e | u <;> rcases bs with e2 | b <;> rcases cs with e3 | c <;> rfl

/-- C8 counterexample: with the device reporting serial number 0 and
consent denied, the serial-number step does not abort with reason
must_give_consent; it re-shows the consent form with the error code
must_give_consent instead. -/
theorem consent_denied_no_abort_cex :
    (async_step_serial_number 0 [] true (some false)).result ≠
      FlowResult.abort "must_give_consent" ∧
    (async_step_serial_number 0 [] true (some false)).result =
      FlowResult.showForm "serial_number" [("base", "must_give_consent")] := by
  constructor <;> decide

/-- C8 amended: with the device reporting serial number 0 and the user
denying consent, the step re-displays the serial_number consent form with
error code must_give_consent, keeps serial number 0 assigned to nothing,
and writes nothing to the device. -/
theorem consent_denied_shows_form (taken : List ℕ) (deviceWriteOk : Bool) :
    async_step_serial_number 0 taken deviceWriteOk (some false) =
      ⟨FlowResult.showForm "serial_number" [("base", "must_give_consent")], 0, none⟩ := by
  simp [async_step_serial_number, serial_number_tail]

/-- C9: when the device reports serial 0, consent is given and every
serial number in 1..65535 is already taken, the source computes
async_abort(reason="serial_numbers_exhausted") but discards the result
(a missing return), so the flow does not abort: it falls through and
re-shows the consent form, assigning nothing. -/
theorem serial_exhausted_falls_through :
    get_next_available_serial_number (List.range' 1 65535) = none ∧
    async_step_serial_number 0 (List.range' 1 65535) true (some true) =
      ⟨FlowResult.showForm "serial_number" [], 0, none⟩ ∧
    async_step_serial_number 0 (List.range' 1 65535) true (some true) ≠
      ⟨FlowResult.abort "serial_numbers_exhausted", 0, none⟩ := by
  have hnone : get_next_available_serial_number (List.range' 1 65535) = none := by
    rw [get_next_available_serial_number, List.find?_eq_none]
    intro x hx
    have hc := List.mem_range'_1.mp hx
    simp
    omega
  have hstep : async_step_serial_number 0 (List.range' 1 65535) true (some true) =
      ⟨FlowResult.showForm "serial_number" [], 0, none⟩ := by
    simp [async_step_serial_number, hnone, serial_number_tail]
  refine ⟨hnone, hstep, ?_⟩
  rw [hstep]
  intro hcon
  simp at hcon

/-- C10: write_serial_number never raises (the device-client
communication error during the EEPROM write is caught and only logged),
and with a failing device write the provisioning step still records the
newly assigned serial number in the created configuration entry while the
device EEPROM keeps none. -/
theorem write_failure_does_not_block_entry (taken : List ℕ) (n : ℕ)
    (h : get_next_available_serial_number taken = some n) :
    (∀ ok : Bool, ∀ m : ℕ, ∃ r, write_serial_number ok m = Except.ok r) ∧
    async_step_serial_number 0 taken false (some true) =
      ⟨FlowResult.createEntry n, n, none⟩ := by
  constructor
  · intro ok m
    cases ok
    · exact ⟨none, rfl⟩
    · exact ⟨some m, rfl⟩
  · have hfind := h
    rw [get_next_available_serial_number] at hfind
    have hmem := List.mem_of_find?_eq_some hfind
    have hbounds := List.mem_range'_1.mp hmem
    have hne : ¬ n = 0 := by omega
    have hp := List.find?_some hfind
    have hnin : n ∉ taken := by simpa using hp
    simp [async_step_serial_number, h, write_serial_number, serial_number_tail, hne, hnin]

/-- C10 witness: with no entries configured, the next serial number is 1
and the step creates the entry with serial 1 even though the device write
failed. -/
theorem write_failure_does_not_block_entry_example :
    get_next_available_serial_number [] = some 1 ∧
    async_step_serial_number 0 [] false (some true) =
      ⟨FlowResult.createEntry 1, 1, none⟩ := by
  have h := write_failure_does_not_block_entry [] 1 rfl
  exact ⟨rfl, h.2⟩
